import Mathlib

/-!
# Verification of `LidarController.h` (rikba/LIDAREnhanced)

A shallow embedding of the `LidarController` class from `src/LidarController.h`.
The controller drives up to `MAX_LIDARS = 8` LidarLite sensors on a shared I2C
bus through a per-sensor state machine (`spinOnce`), serialises address
reassignment with a global `resetOngoing` latch, and counts bus failures
(`nacksCount`) per sensor, forcing a reset when the count exceeds
`MAX_NACKS = 10`.

External collaborators that are not part of `src/` — the I2C bus primitives
(`I2CFunctions.h`) and the per-sensor data holder (`LidarObject.h`) — are
modelled from the specification: the bus is an oracle supplying, per tick and
per sensor, the outcome of each transaction and whether the sensor's elapsed
timer has fired; the `LidarObject` is a record of the fields the controller
reads and writes.
-/

namespace LidarEnhanced

/-- The per-sensor lifecycle states. The enumeration `LIDAR_STATE` lives in
`LidarObject.h` (not under `src/`); the constructor names are the ones the
controller source uses in its `switch`. Modelled from the spec: §4.2 lists the
same seven states under the names AWAITING_RESET = `NEED_RESET`,
RESET_IN_FLIGHT = `RESET_PENDING`, POWERING_DOWN = `SHUTING_DOWN`,
NEEDS_CONFIGURE = `NEED_CONFIGURE`, ACQUISITION_COMPLETE = `ACQUISITION_DONE`. -/
inductive LIDAR_STATE where
  | NEED_CONFIGURE
  | ACQUISITION_READY
  | ACQUISITION_PENDING
  | ACQUISITION_DONE
  | NEED_RESET
  | RESET_PENDING
  | SHUTING_DOWN
  deriving DecidableEq, Repr

/-- Modelled from the spec: §3 SensorUnit (`LidarObject.h` is not under
`src/`). Fields are the ones `LidarController.h` reads or writes:
`address`, `lidar_state`, `distance`, `last_distance`, `strength`,
`nacksCount`, and the power-enable pin toggled by `on()` / `off()`. -/
structure LidarObject where
  address : Nat
  lidar_state : LIDAR_STATE
  distance : Int
  last_distance : Int
  strength : Nat
  nacksCount : Nat
  power_enable : Bool
  deriving DecidableEq, Repr

/-- Modelled from the spec: §4.1 BusTransactor contract plus the SensorUnit
elapsed timer (`I2CFunctions.h` / `LidarObject::checkTimer` are not under
`src/`). One value of this structure fixes the environment a single sensor
sees during one tick:
* `timerElapsed` — the answer `checkTimer()` returns;
* `isOnline a` — whether address `a` answers the online probe;
* `write a r v` — the nack flag of a register write (`true` = failure);
* `readByte a r` — `some v` on success; `none` on failure, in which case the
  caller's buffer is left untouched (spec §4.1: reads return a value plus a
  failure flag; the controller's buffers keep their initialisation);
* `readWord a r` — `(nack, b0, b1)` where `b0, b1` are the two bytes the
  caller's buffer holds after the call (on `nack = true` they stand for the
  unspecified contents of the unoverwritten buffer, chosen adversarially). -/
structure SensorEnv where
  timerElapsed : Bool
  isOnline : Nat → Bool
  write : Nat → Nat → Nat → Bool
  readByte : Nat → Nat → Option Nat
  readWord : Nat → Nat → Bool × Nat × Nat

/-- `MAX_LIDARS` from the source. -/
def MAX_LIDARS : Nat := 8

/-- `MAX_NACKS` from the source. -/
def MAX_NACKS : Nat := 10

/-- `shouldIncrementNack` (source lines 334-339): increments `nacksCount`
when the nack flag is set; the flag itself is returned unchanged by the
source, here the caller keeps it. -/
def shouldIncrementNack (L : LidarObject) (nack : Bool) : LidarObject :=
  if nack then { L with nacksCount := L.nacksCount + 1 } else L

/-- A bus transaction, recorded so that theorems can speak about which
register operations a routine performed. -/
inductive BusOp where
  | probe (addr : Nat)
  | write (addr reg val : Nat)
  | readWord (addr reg : Nat)
  | readByte (addr reg : Nat)
  deriving DecidableEq, Repr

/-- Whether a recorded bus operation is a register write. -/
def BusOp.isWrite : BusOp → Bool
  | .write _ _ _ => true
  | _ => false

/-- Whether a recorded bus operation is a register read (byte or word). -/
def BusOp.isRead : BusOp → Bool
  | .readWord _ _ => true
  | .readByte _ _ => true
  | _ => false

/-- Result of `changeAddress`: the return code, the updated sensor record
(only `nacksCount` can change), and the list of bus transactions issued. -/
structure ChangeAddrOut where
  code : Nat
  lidar : LidarObject
  ops : List BusOp
  deriving Repr

/-- `changeAddress` (source lines 132-164). Return codes per the source
doc comment: 0 success, 1/2 error writing the serial bytes, 3 error sending
the address, 4 error disabling the main address, 5 target address already
online, 6 factory address 0x62 unresponsive. Note that the serial-number
`readWord` at line 147 feeds `shouldIncrementNack` but its nack is never
tested: the routine continues into the write steps regardless. -/
def changeAddress (L : LidarObject) (env : SensorEnv) : ChangeAddrOut :=
  let newAddr := L.address
  if env.isOnline 0x62 = false then
    { code := 6, lidar := shouldIncrementNack L true, ops := [.probe 0x62] }
  else if env.isOnline newAddr then
    { code := 5, lidar := shouldIncrementNack L true,
      ops := [.probe 0x62, .probe newAddr] }
  else
    let r := env.readWord 0x62 0x96
    let L1 := shouldIncrementNack L r.1
    let s0 := r.2.1
    let s1 := r.2.2
    let ops0 : List BusOp := [.probe 0x62, .probe newAddr, .readWord 0x62 0x96]
    let w1 := env.write 0x62 0x18 s0
    let L2 := shouldIncrementNack L1 w1
    let ops1 := ops0 ++ [.write 0x62 0x18 s0]
    if w1 then { code := 1, lidar := L2, ops := ops1 }
    else
      let w2 := env.write 0x62 0x19 s1
      let L3 := shouldIncrementNack L2 w2
      let ops2 := ops1 ++ [.write 0x62 0x19 s1]
      if w2 then { code := 2, lidar := L3, ops := ops2 }
      else
        let w3 := env.write 0x62 0x1a newAddr
        let L4 := shouldIncrementNack L3 w3
        let ops3 := ops2 ++ [.write 0x62 0x1a newAddr]
        if w3 then { code := 3, lidar := L4, ops := ops3 }
        else
          let w4 := env.write 0x62 0x1e 0x08
          let L5 := shouldIncrementNack L4 w4
          let ops4 := ops3 ++ [.write 0x62 0x1e 0x08]
          if w4 then { code := 4, lidar := L5, ops := ops4 }
          else { code := 0, lidar := L5, ops := ops4 }

/-- `status` (source lines 171-177): reads the status register 0x01 into a
buffer initialised to 171; on a failed read the buffer is untouched, so 171
is returned. Returns the status value and the sensor with its nack counted. -/
def status (L : LidarObject) (env : SensorEnv) : Nat × LidarObject :=
  let r := env.readByte L.address 0x01
  ((r.getD 171), shouldIncrementNack L r.isNone)

/-- `distance` (source lines 195-202): reads the two-byte measured value at
register 0x8f, counts the nack, and composes `(b0 << 8) + b1` from whatever
the buffer holds — also when the read failed. Returns
`(nackCatcher, value written through the output pointer, updated sensor)`. -/
def distance (L : LidarObject) (env : SensorEnv) : Bool × Int × LidarObject :=
  let r := env.readWord L.address 0x8f
  let L2 := shouldIncrementNack L r.1
  let d : Int := (Nat.shiftLeft r.2.1 8 : Nat) + (r.2.2 : Nat)
  (r.1, d, L2)

/-- `resetLidar` (source lines 294-298) restricted to the object it mutates:
power off and state `SHUTING_DOWN` (`timerUpdate` re-arms the opaque timer,
which the oracle models). -/
def resetLidarObj (L : LidarObject) : LidarObject :=
  { L with power_enable := false, lidar_state := .SHUTING_DOWN }

/-- The body of `spinOnce`'s `switch` for one sensor (source lines 379-457),
together with the global `resetOngoing` latch it reads and writes.
`PRINT_DEBUG_INFO` is false and `FORCE_RESET_OFFSET` is true in the source,
so the debug prints are absent and `ACQUISITION_DONE` performs the
`setOffset` write (which the source does not nack-check). -/
def caseStep (L : LidarObject) (ro : Bool) (env : SensorEnv) :
    LidarObject × Bool :=
  match L.lidar_state with
  | .NEED_CONFIGURE =>
      -- configure(i) with the default configuration 2: write 0x20 to 0x1c
      let L1 := shouldIncrementNack L (env.write L.address 0x1c 0x20)
      ({ L1 with lidar_state := .ACQUISITION_READY }, ro)
  | .ACQUISITION_READY =>
      -- async(i): write 0x04 to the control register 0x00
      let L1 := shouldIncrementNack L (env.write L.address 0x00 0x04)
      ({ L1 with lidar_state := .ACQUISITION_PENDING }, ro)
  | .ACQUISITION_PENDING =>
      let st := status L env
      if Nat.testBit st.1 0 = false then
        let rd := distance st.2 env
        let L2 := rd.2.2
        let d := rd.2.1
        let L3 := if ((d - L2.distance).natAbs > 100 ∨ (d < 4 ∨ d > 1000))
          then shouldIncrementNack L2 true else L2
        ({ L3 with last_distance := L3.distance, distance := d,
                   lidar_state := .ACQUISITION_DONE }, ro)
      else (st.2, ro)
  | .ACQUISITION_DONE =>
      -- signalStrength into a buffer initialised to 0, then notify_distance
      -- (external observer) and the unchecked setOffset write
      let r := env.readByte L.address 0x0e
      let L1 := shouldIncrementNack L r.isNone
      let L2 := { L1 with strength := r.getD 0 }
      ({ L2 with lidar_state := .ACQUISITION_READY }, ro)
  | .NEED_RESET =>
      if ro = false then
        -- preReset: set the latch, power on, re-arm the timer
        ({ L with power_enable := true, lidar_state := .RESET_PENDING }, true)
      else (L, ro)
  | .RESET_PENDING =>
      if env.timerElapsed then
        -- postReset: changeAddress, then clear the latch
        let r := changeAddress L env
        ({ r.lidar with lidar_state := .NEED_CONFIGURE }, false)
      else (L, ro)
  | .SHUTING_DOWN =>
      if env.timerElapsed then
        -- postReset also runs here, clearing the latch unconditionally
        let r := changeAddress L env
        ({ r.lidar with lidar_state := .NEED_RESET }, false)
      else (L, ro)

/-- One slot's full share of a tick (source lines 379-461): the `switch`
case followed by `checkNacks` (lines 346-352) and, when it fires,
`resetLidar` (lines 459-461). `checkNacks` clears the counter; `resetLidar`
powers off and forces `SHUTING_DOWN`. -/
def spinStep (L : LidarObject) (ro : Bool) (env : SensorEnv) :
    LidarObject × Bool :=
  let m := caseStep L ro env
  if m.1.nacksCount > MAX_NACKS then
    (resetLidarObj { m.1 with nacksCount := 0 }, m.2)
  else m

/-- The controller's own state (source lines 465-468): the slot array of
sensor pointers (a slot never assigned is `none`), the `resetOngoing` latch
and the registration counter `count` (a `uint8_t`, hence the mod 256). -/
structure LidarController where
  lidars : Nat → Option LidarObject
  resetOngoing : Bool
  count : Nat

/-- The controller as constructed: no slot assigned, latch clear, count 0. -/
def initController : LidarController :=
  { lidars := fun _ => none, resetOngoing := false, count := 0 }

/-- `add` (source lines 79-86): fails when the slot index is at least
`MAX_LIDARS`; otherwise stores the sensor, applies `resetLidar` to it
(power off, state `SHUTING_DOWN`) and increments `count` (a `uint8_t`). -/
def add (c : LidarController) (L : LidarObject) (id : Nat) :
    Bool × LidarController :=
  if MAX_LIDARS ≤ id then (false, c)
  else (true,
    { c with
      lidars := fun j => if j = id then some (resetLidarObj L) else c.lidars j,
      count := (c.count + 1) % 256 })

/-- `getCount` (source lines 316-318). -/
def getCount (c : LidarController) : Nat := c.count

/-- One iteration of `spinOnce`'s `for` loop at slot `i`. Dereferencing a
slot that was never assigned is undefined behaviour in the C source; the
model leaves the controller unchanged there, and no theorem below exercises
that case. -/
def spinSlot (env : Nat → SensorEnv) (c : LidarController) (i : Nat) :
    LidarController :=
  match c.lidars i with
  | none => c
  | some L =>
      let r := spinStep L c.resetOngoing (env i)
      { c with
        lidars := fun j => if j = i then some r.1 else c.lidars j,
        resetOngoing := r.2 }

/-- `spinOnce` (source lines 370-463): slots `0 … count-1` in order, each
processed by its `switch` case and then its nack check, with the
`resetOngoing` latch threaded through. `env i` is the bus-and-timer oracle
slot `i` sees this tick. -/
def spinOnce (c : LidarController) (env : Nat → SensorEnv) : LidarController :=
  (List.range c.count).foldl (spinSlot env) c

/-- The distance word as the source composes it: `(b0 << 8) + b1`, read as
a C `int`. -/
def composeWord (b0 b1 : Nat) : Int :=
  ((Nat.shiftLeft b0 8 : Nat) : Int) + (b1 : Int)

/-- An oracle for one tick of one sensor in which the timer answer is `t`,
no address answers the online probe, every write succeeds and every read
fails (returning a zeroed buffer). -/
def envOffline (t : Bool) : SensorEnv :=
  { timerElapsed := t, isOnline := fun _ => false,
    write := fun _ _ _ => false, readByte := fun _ _ => none,
    readWord := fun _ _ => (true, 0, 0) }

/-- A freshly constructed sensor record at bus address `a`, before
registration applies `resetLidar` to it. -/
def mkLidar (a : Nat) : LidarObject :=
  { address := a, lidar_state := .NEED_CONFIGURE, distance := 0,
    last_distance := 0, strength := 0, nacksCount := 0, power_enable := false }

/-! ## Projection lemmas for `shouldIncrementNack` -/

@[simp]
theorem shouldIncrementNack_lidar_state (L : LidarObject) (n : Bool) :
    (shouldIncrementNack L n).lidar_state = L.lidar_state := by
  unfold shouldIncrementNack; split <;> rfl

@[simp]
theorem shouldIncrementNack_address (L : LidarObject) (n : Bool) :
    (shouldIncrementNack L n).address = L.address := by
  unfold shouldIncrementNack; split <;> rfl

@[simp]
theorem shouldIncrementNack_distance (L : LidarObject) (n : Bool) :
    (shouldIncrementNack L n).distance = L.distance := by
  unfold shouldIncrementNack; split <;> rfl

@[simp]
theorem shouldIncrementNack_last_distance (L : LidarObject) (n : Bool) :
    (shouldIncrementNack L n).last_distance = L.last_distance := by
  unfold shouldIncrementNack; split <;> rfl

@[simp]
theorem shouldIncrementNack_power (L : LidarObject) (n : Bool) :
    (shouldIncrementNack L n).power_enable = L.power_enable := by
  unfold shouldIncrementNack; split <;> rfl

@[simp]
theorem shouldIncrementNack_nacksCount (L : LidarObject) (n : Bool) :
    (shouldIncrementNack L n).nacksCount =
      L.nacksCount + (if n then 1 else 0) := by
  unfold shouldIncrementNack; cases n <;> simp

/-! ## C3: the fault threshold forces a reset -/

/-- C3: for every sensor, latch value and tick environment, whenever the
fault counter exceeds `MAX_NACKS = 10` after the sensor's state case has
executed, the nack check at the end of the slot's tick forces the sensor
into `SHUTING_DOWN` with its power disabled and its fault counter reset
to 0. -/
theorem c3_nack_threshold_forces_reset (L : LidarObject) (ro : Bool)
    (env : SensorEnv) (h : MAX_NACKS < (caseStep L ro env).1.nacksCount) :
    (spinStep L ro env).1.lidar_state = .SHUTING_DOWN ∧
    (spinStep L ro env).1.nacksCount = 0 ∧
    (spinStep L ro env).1.power_enable = false := by
  simp [spinStep, if_pos h, resetLidarObj]

/-- Sensor used to witness C3: waiting in `NEED_RESET` behind the latch
with its fault counter already past the threshold. -/
def c3L : LidarObject :=
  { mkLidar 0x66 with lidar_state := .NEED_RESET, nacksCount := 11 }

/-- Witness for C3 at a concrete sensor and environment. -/
theorem c3_witness :
    MAX_NACKS < (caseStep c3L true (envOffline false)).1.nacksCount ∧
    (spinStep c3L true (envOffline false)).1.lidar_state = .SHUTING_DOWN ∧
    (spinStep c3L true (envOffline false)).1.nacksCount = 0 ∧
    (spinStep c3L true (envOffline false)).1.power_enable = false :=
  ⟨by decide, c3_nack_threshold_forces_reset c3L true (envOffline false) (by decide)⟩

/-! ## C5: unresponsive factory address aborts the reassignment -/

/-- C5: whenever the shared factory address 0x62 does not answer the online
probe, `changeAddress` returns error code 6 (device unresponsive) having
issued only that single probe — zero register reads and zero register
writes. -/
theorem c5_unresponsive_aborts (L : LidarObject) (env : SensorEnv)
    (h : env.isOnline 0x62 = false) :
    (changeAddress L env).code = 6 ∧
    (changeAddress L env).ops = [.probe 0x62] ∧
    (∀ op ∈ (changeAddress L env).ops,
      op.isWrite = false ∧ op.isRead = false) := by
  refine ⟨?_, ?_, ?_⟩ <;>
    simp [changeAddress, h, BusOp.isWrite, BusOp.isRead]

/-- Witness for C5 at a concrete sensor and environment. -/
theorem c5_witness :
    (envOffline false).isOnline 0x62 = false ∧
    (changeAddress (mkLidar 0x66) (envOffline false)).code = 6 ∧
    (changeAddress (mkLidar 0x66) (envOffline false)).ops = [.probe 0x62] :=
  ⟨rfl, (c5_unresponsive_aborts (mkLidar 0x66) (envOffline false) rfl).1,
    (c5_unresponsive_aborts (mkLidar 0x66) (envOffline false) rfl).2.1⟩

/-! ## C10: precondition failures still count one fault -/

/-- C10: when `changeAddress` fails one of its two precondition probes —
factory address 0x62 unresponsive (code 6) or target address already online
(code 5) — the sensor's fault counter is incremented by exactly 1 even
though not a single register write was attempted, feeding the forced-reset
recovery policy of `checkNacks`. -/
theorem c10_precondition_failure_counts (L : LidarObject) (env : SensorEnv)
    (h : env.isOnline 0x62 = false ∨
      (env.isOnline 0x62 = true ∧ env.isOnline L.address = true)) :
    ((changeAddress L env).code = 6 ∨ (changeAddress L env).code = 5) ∧
    (changeAddress L env).lidar.nacksCount = L.nacksCount + 1 ∧
    (∀ op ∈ (changeAddress L env).ops, op.isWrite = false) := by
  rcases h with h | ⟨h1, h2⟩ <;>
    simp [changeAddress, *, BusOp.isWrite]

/-- Witness for C10 at a concrete sensor and environment. -/
theorem c10_witness :
    ((envOffline false).isOnline 0x62 = false ∨
      ((envOffline false).isOnline 0x62 = true ∧
        (envOffline false).isOnline (mkLidar 0x66).address = true)) ∧
    (((changeAddress (mkLidar 0x66) (envOffline false)).code = 6 ∨
      (changeAddress (mkLidar 0x66) (envOffline false)).code = 5) ∧
     (changeAddress (mkLidar 0x66) (envOffline false)).lidar.nacksCount =
       (mkLidar 0x66).nacksCount + 1 ∧
     (∀ op ∈ (changeAddress (mkLidar 0x66) (envOffline false)).ops,
       op.isWrite = false)) :=
  ⟨Or.inl rfl,
    c10_precondition_failure_counts (mkLidar 0x66) (envOffline false) (Or.inl rfl)⟩

/-! ## C8: a failed status read cannot clear the busy flag -/

/-- C8: when the status-register read fails (the bus layer reports failure
and leaves the caller's buffer untouched), `status` returns the sentinel
171, whose bit 0 is set, the failed read is counted as one fault, and a
sensor in `ACQUISITION_PENDING` stays there through its case — in
particular the full slot tick never moves it to `ACQUISITION_DONE`. -/
theorem c8_failed_status_no_advance (L : LidarObject) (ro : Bool)
    (env : SensorEnv) (hs : L.lidar_state = .ACQUISITION_PENDING)
    (hrb : env.readByte L.address 0x01 = none) :
    (status L env).1 = 171 ∧
    Nat.testBit 171 0 = true ∧
    (status L env).2.nacksCount = L.nacksCount + 1 ∧
    (caseStep L ro env).1.lidar_state = .ACQUISITION_PENDING ∧
    (spinStep L ro env).1.lidar_state ≠ .ACQUISITION_DONE := by
  have hst : (caseStep L ro env).1.lidar_state = .ACQUISITION_PENDING := by
    simp [caseStep, hs, status, hrb]
  refine ⟨by simp [status, hrb], by decide, by simp [status, hrb], hst, ?_⟩
  by_cases hn : (caseStep L ro env).1.nacksCount > MAX_NACKS
  · simp [spinStep, hn, resetLidarObj]
  · simp [spinStep, hn, hst]

/-- Sensor used to witness C8: polling in `ACQUISITION_PENDING`. -/
def c8L : LidarObject :=
  { mkLidar 0x66 with lidar_state := .ACQUISITION_PENDING }

/-- Witness for C8 at a concrete sensor and environment. -/
theorem c8_witness :
    c8L.lidar_state = .ACQUISITION_PENDING ∧
    (envOffline false).readByte c8L.address 0x01 = none ∧
    (status c8L (envOffline false)).1 = 171 ∧
    (caseStep c8L false (envOffline false)).1.lidar_state =
      .ACQUISITION_PENDING ∧
    (spinStep c8L false (envOffline false)).1.lidar_state ≠
      .ACQUISITION_DONE :=
  ⟨rfl, rfl,
    (c8_failed_status_no_advance c8L false (envOffline false) rfl rfl).1,
    (c8_failed_status_no_advance c8L false (envOffline false) rfl rfl).2.2.2.1,
    (c8_failed_status_no_advance c8L false (envOffline false) rfl rfl).2.2.2.2⟩

/-! ## C4: suspect readings are counted but never discarded -/

/-- C4: when a sensor in `ACQUISITION_PENDING` reads its status successfully
with the busy bit clear and then reads a fresh distance word `d`
successfully, the fault counter grows by exactly 1 precisely when
`|d - distance| > 100` or `d < 4` or `d > 1000` (and by 0 otherwise), while
in every case `d` is stored as the new current distance, the prior value
moves to `last_distance`, and the state advances to `ACQUISITION_DONE` —
a suspect reading is never discarded. -/
theorem c4_suspect_reading_still_stored (L : LidarObject) (ro : Bool)
    (env : SensorEnv) (hs : L.lidar_state = .ACQUISITION_PENDING)
    (b : Nat) (hb : env.readByte L.address 0x01 = some b)
    (hbit : Nat.testBit b 0 = false)
    (b0 b1 : Nat) (hw : env.readWord L.address 0x8f = (false, b0, b1)) :
    (caseStep L ro env).1.distance = composeWord b0 b1 ∧
    (caseStep L ro env).1.last_distance = L.distance ∧
    (caseStep L ro env).1.lidar_state = .ACQUISITION_DONE ∧
    (caseStep L ro env).1.nacksCount = L.nacksCount +
      (if (composeWord b0 b1 - L.distance).natAbs > 100 ∨
          (composeWord b0 b1 < 4 ∨ composeWord b0 b1 > 1000)
       then 1 else 0) := by
  simp only [caseStep, hs, status, hb, distance, composeWord]
  simp only [shouldIncrementNack_address]
  rw [hw]
  simp [hbit, shouldIncrementNack]
  split <;> simp

/-- Environment used to witness C4: status reads back 0 (ready) and the
distance word reads back `(5, 220)`, composing to 1500 — outside the
declared valid range 4–1000. -/
def c4Env : SensorEnv :=
  { timerElapsed := false, isOnline := fun _ => false,
    write := fun _ _ _ => false, readByte := fun _ _ => some 0,
    readWord := fun _ _ => (false, 5, 220) }

/-- Sensor used to witness C4: polling in `ACQUISITION_PENDING` with a
previous distance of 500. -/
def c4L : LidarObject :=
  { mkLidar 0x66 with lidar_state := .ACQUISITION_PENDING, distance := 500 }

/-- Witness for C4: the out-of-range reading 1500 is stored as the current
distance and the fault counter grows by exactly 1. -/
theorem c4_witness :
    c4L.lidar_state = .ACQUISITION_PENDING ∧
    c4Env.readByte c4L.address 0x01 = some 0 ∧
    Nat.testBit 0 0 = false ∧
    c4Env.readWord c4L.address 0x8f = (false, 5, 220) ∧
    (caseStep c4L false c4Env).1.distance = composeWord 5 220 ∧
    (caseStep c4L false c4Env).1.last_distance = c4L.distance ∧
    (caseStep c4L false c4Env).1.lidar_state = .ACQUISITION_DONE ∧
    (caseStep c4L false c4Env).1.nacksCount = c4L.nacksCount +
      (if (composeWord 5 220 - c4L.distance).natAbs > 100 ∨
          (composeWord 5 220 < 4 ∨ composeWord 5 220 > 1000)
       then 1 else 0) :=
  ⟨rfl, rfl, rfl, rfl,
    c4_suspect_reading_still_stored c4L false c4Env rfl 0 rfl rfl 5 220 rfl⟩

/-! ## C9: a failed distance read still passes a value through -/

/-- C9: when the distance-word read itself fails as a bus transaction while
a sensor is in `ACQUISITION_PENDING` with the busy flag clear, `distance`
still composes `(b0 << 8) + b1` from whatever the buffer holds and writes
it through its output parameter, `spinOnce`'s case stores that value as the
current distance and advances the state to `ACQUISITION_DONE`; the failure
shows up only as fault-counter increments (one for the read, one more if
the composed value fails validation). -/
theorem c9_failed_distance_passes_through (L : LidarObject) (ro : Bool)
    (env : SensorEnv) (hs : L.lidar_state = .ACQUISITION_PENDING)
    (b : Nat) (hb : env.readByte L.address 0x01 = some b)
    (hbit : Nat.testBit b 0 = false)
    (b0 b1 : Nat) (hw : env.readWord L.address 0x8f = (true, b0, b1)) :
    (distance L env).1 = true ∧
    (distance L env).2.1 = composeWord b0 b1 ∧
    (caseStep L ro env).1.distance = composeWord b0 b1 ∧
    (caseStep L ro env).1.last_distance = L.distance ∧
    (caseStep L ro env).1.lidar_state = .ACQUISITION_DONE ∧
    (caseStep L ro env).1.nacksCount = L.nacksCount + 1 +
      (if (composeWord b0 b1 - L.distance).natAbs > 100 ∨
          (composeWord b0 b1 < 4 ∨ composeWord b0 b1 > 1000)
       then 1 else 0) := by
  simp only [caseStep, hs, status, hb, distance, composeWord]
  simp only [shouldIncrementNack_address]
  rw [hw]
  simp [hbit, shouldIncrementNack]
  split <;> simp

/-- Environment used to witness C9: status reads back 0 (ready) but the
distance-word read fails, leaving the bytes `(1, 49)` in the buffer. -/
def c9Env : SensorEnv :=
  { timerElapsed := false, isOnline := fun _ => false,
    write := fun _ _ _ => false, readByte := fun _ _ => some 0,
    readWord := fun _ _ => (true, 1, 49) }

/-- Sensor used to witness C9. -/
def c9L : LidarObject :=
  { mkLidar 0x66 with lidar_state := .ACQUISITION_PENDING, distance := 300 }

/-- Witness for C9: the failed read's buffer composes to 305, which is
stored and advances the state; the fault counter grows by exactly the
read's increment. -/
theorem c9_witness :
    c9L.lidar_state = .ACQUISITION_PENDING ∧
    c9Env.readByte c9L.address 0x01 = some 0 ∧
    Nat.testBit 0 0 = false ∧
    c9Env.readWord c9L.address 0x8f = (true, 1, 49) ∧
    (distance c9L c9Env).1 = true ∧
    (distance c9L c9Env).2.1 = composeWord 1 49 ∧
    (caseStep c9L false c9Env).1.distance = composeWord 1 49 ∧
    (caseStep c9L false c9Env).1.last_distance = c9L.distance ∧
    (caseStep c9L false c9Env).1.lidar_state = .ACQUISITION_DONE ∧
    (caseStep c9L false c9Env).1.nacksCount = c9L.nacksCount + 1 +
      (if (composeWord 1 49 - c9L.distance).natAbs > 100 ∨
          (composeWord 1 49 < 4 ∨ composeWord 1 49 > 1000)
       then 1 else 0) :=
  ⟨rfl, rfl, rfl, rfl,
    c9_failed_distance_passes_through c9L false c9Env rfl 0 rfl rfl 1 49 rfl⟩

/-! ## C1: the reset mutual exclusion is violated by the code

Registering two sensors and staggering their shutdown timers reaches a
state with both sensors in `RESET_PENDING` with power enabled: sensor 0
claims the `resetOngoing` latch, but sensor 1's initial `SHUTING_DOWN`
timer then elapses and its `postReset` call clears the latch
unconditionally, letting sensor 1 power on while sensor 0 is still mid
reset. -/

/-- The controller after registering sensors at slots 0 and 1. -/
def c1Start : LidarController :=
  (add (add initController (mkLidar 0x66) 0).2 (mkLidar 0x68) 1).2

/-- The controller after three ticks: tick 1 elapses only sensor 0's
shutdown timer, tick 2 elapses only sensor 1's, tick 3 elapses neither. -/
def c1End : LidarController :=
  spinOnce
    (spinOnce (spinOnce c1Start (fun i => envOffline (i == 0)))
      (fun i => envOffline (i == 1)))
    (fun _ => envOffline false)

/-- C1 fails on the code: after the three-tick run both registered sensors
are simultaneously in the reset phase `RESET_PENDING` with power enabled,
contradicting the claimed mutual-exclusion invariant (and the source's own
comments at `preReset` and the `RESET_PENDING` case). The `SHUTING_DOWN`
branch of `spinOnce` calls `postReset`, which clears `resetOngoing` even
when another sensor holds it. -/
theorem c1_mutex_violated :
    ((c1End.lidars 0).map (fun L => (L.lidar_state, L.power_enable)) =
      some (.RESET_PENDING, true)) ∧
    ((c1End.lidars 1).map (fun L => (L.lidar_state, L.power_enable)) =
      some (.RESET_PENDING, true)) := by decide

/-! ## C2: duplicate slot registration drives the count past capacity -/

/-- `n` successive registrations of a sensor at slot 0. -/
def addSameSlot : Nat → LidarController
  | 0 => initController
  | n + 1 => (add (addSameSlot n) (mkLidar 0x66) 0).2

/-- C2 as stated fails on the code: the 9th registration also succeeds when
it reuses slot index 0 (`add` only checks the slot bound), and `getCount`
then returns 9 > 8. -/
theorem c2_counterexample :
    (add (addSameSlot 8) (mkLidar 0x66) 0).1 = true ∧
    getCount (addSameSlot 9) = 9 := by decide

/-- Registration calls applied in order. -/
def runAdds (c : LidarController) (ops : List (LidarObject × Nat)) :
    LidarController :=
  ops.foldl (fun acc p => (add acc p.1 p.2).2) c

/-- A duplicate-free list of naturals below 8 has at most 8 elements. -/
theorem nodup_lt_eight_length {l : List Nat} (h : l.Nodup) :
    (l.filter (fun i => decide (i < 8))).length ≤ 8 := by
  have hnd : (l.filter (fun i => decide (i < 8))).Nodup := h.filter _
  have hsub : (l.filter (fun i => decide (i < 8))).toFinset ⊆
      Finset.range 8 := by
    intro x hx
    simp only [List.mem_toFinset, List.mem_filter, decide_eq_true_eq] at hx
    exact Finset.mem_range.mpr hx.2
  have hcard := Finset.card_le_card hsub
  rw [Finset.card_range, List.toFinset_card_of_nodup hnd] at hcard
  exact hcard

/-- The count after a run of registrations is bounded by the starting count
plus the number of calls with an in-range slot index. -/
theorem runAdds_count_le (ops : List (LidarObject × Nat)) :
    ∀ c : LidarController, getCount (runAdds c ops) ≤
      getCount c + ((ops.map Prod.snd).filter (fun i => decide (i < 8))).length := by
  induction ops with
  | nil => intro c; simp [runAdds, getCount]
  | cons p tl ih =>
      intro c
      simp only [runAdds, List.foldl_cons, List.map_cons, List.filter_cons]
      by_cases hp : p.2 < 8
      · have hadd : (add c p.1 p.2).2.count = (c.count + 1) % 256 := by
          simp [add, MAX_LIDARS, Nat.not_le.mpr hp]
        have hle : (add c p.1 p.2).2.count ≤ c.count + 1 :=
          hadd ▸ Nat.mod_le _ _
        have := ih (add c p.1 p.2).2
        simp only [runAdds] at this
        simp only [decide_eq_true_eq, hp, if_pos, List.length_cons]
        unfold getCount at this ⊢
        omega
      · have hadd : (add c p.1 p.2).2 = c := by
          simp [add, MAX_LIDARS, Nat.le_of_not_lt hp]
        have hcnt : (add c p.1 p.2).2.count = c.count := by rw [hadd]
        have := ih (add c p.1 p.2).2
        simp only [runAdds] at this
        simp only [decide_eq_true_eq, hp, if_neg, if_false]
        unfold getCount at this ⊢
        omega

/-- C2 amended: a registration call with slot index ≥ 8 returns false and
leaves the controller unchanged; and as long as the registration calls use
pairwise distinct slot indices (only indices 0–7 can succeed), `getCount`
never exceeds 8. The cap does not hold for arbitrary call sequences: the
counterexample re-registers slot 0 nine times and drives the count to 9. -/
theorem c2_amended_capacity :
    (∀ (c : LidarController) (L : LidarObject) (id : Nat),
      8 ≤ id → add c L id = (false, c)) ∧
    (∀ ops : List (LidarObject × Nat), (ops.map Prod.snd).Nodup →
      getCount (runAdds initController ops) ≤ 8) := by
  constructor
  · intro c L id hid
    simp [add, MAX_LIDARS, hid]
  · intro ops hnd
    have h1 := runAdds_count_le ops initController
    have h2 := nodup_lt_eight_length hnd
    simp only [getCount, initController] at h1 ⊢
    omega

/-- Witness for C2 amended, at a concrete rejected call and a concrete
distinct-slot run. -/
theorem c2_amended_witness :
    (8 ≤ 9 ∧ add initController (mkLidar 0x66) 9 = (false, initController)) ∧
    (([(mkLidar 0x66, 0), (mkLidar 0x68, 1)].map
        (Prod.snd (α := LidarObject) (β := Nat))).Nodup ∧
      getCount (runAdds initController
        [(mkLidar 0x66, 0), (mkLidar 0x68, 1)]) ≤ 8) :=
  ⟨⟨by decide, c2_amended_capacity.1 initController (mkLidar 0x66) 9 (by decide)⟩,
    ⟨by decide, c2_amended_capacity.2
      [(mkLidar 0x66, 0), (mkLidar 0x68, 1)] (by decide)⟩⟩

/-! ## C6: a failed identifier read does not abort the reassignment -/

/-- Environment used against C6: the factory address 0x62 is the only one
online, the serial-number word read fails (leaving bytes `(7, 9)` in the
uninitialised buffer), and every write succeeds. -/
def c6Env : SensorEnv :=
  { timerElapsed := false, isOnline := fun a => a == 0x62,
    write := fun _ _ _ => false, readByte := fun _ _ => none,
    readWord := fun _ _ => (true, 7, 9) }

/-- C6 fails on the code: with the identifier-word read failing as a bus
transaction, `changeAddress` does not fail with any read-failure result —
it performs all four subsequent register writes and returns 0 (success).
The read's nack feeds `shouldIncrementNack` at source line 147 but its
value is never tested. -/
theorem c6_counterexample :
    (changeAddress (mkLidar 0x66) c6Env).code = 0 ∧
    ((changeAddress (mkLidar 0x66) c6Env).ops.filter BusOp.isWrite).length
      = 4 ∧
    (changeAddress (mkLidar 0x66) c6Env).lidar.nacksCount =
      (mkLidar 0x66).nacksCount + 1 := by decide

/-- C6 amended: a transaction failure while reading the 2-byte identifier
word from the factory address increments the sensor's fault counter, but
the routine then proceeds to the subsequent write steps with whatever the
buffer holds — the source has no distinct read-failure result code. -/
theorem c6_amended_read_failure_proceeds (L : LidarObject) (env : SensorEnv)
    (h62 : env.isOnline 0x62 = true) (hnew : env.isOnline L.address = false)
    (b0 b1 : Nat) (hw : env.readWord 0x62 0x96 = (true, b0, b1)) :
    BusOp.readWord 0x62 0x96 ∈ (changeAddress L env).ops ∧
    BusOp.write 0x62 0x18 b0 ∈ (changeAddress L env).ops ∧
    L.nacksCount + 1 ≤ (changeAddress L env).lidar.nacksCount := by
  cases hw1 : env.write 0x62 0x18 b0 <;>
    cases hw2 : env.write 0x62 0x19 b1 <;>
      cases hw3 : env.write 0x62 0x1a L.address <;>
        cases hw4 : env.write 0x62 0x1e 0x08 <;>
          simp [changeAddress, h62, hnew, hw, hw1, hw2, hw3, hw4,
            shouldIncrementNack]

/-- Witness for C6 amended at the concrete counterexample environment. -/
theorem c6_amended_witness :
    c6Env.isOnline 0x62 = true ∧
    c6Env.isOnline (mkLidar 0x66).address = false ∧
    c6Env.readWord 0x62 0x96 = (true, 7, 9) ∧
    BusOp.readWord 0x62 0x96 ∈ (changeAddress (mkLidar 0x66) c6Env).ops ∧
    BusOp.write 0x62 0x18 7 ∈ (changeAddress (mkLidar 0x66) c6Env).ops ∧
    (mkLidar 0x66).nacksCount + 1 ≤
      (changeAddress (mkLidar 0x66) c6Env).lidar.nacksCount :=
  ⟨rfl, rfl, rfl,
    c6_amended_read_failure_proceeds (mkLidar 0x66) c6Env rfl rfl 7 9 rfl⟩

/-! ## C7: one tick advances each sensor by at most one edge -/

/-- The transition edges of the `spinOnce` switch (spec §4.2's table, with
the source's state names). -/
def isEdge : LIDAR_STATE → LIDAR_STATE → Bool
  | .NEED_CONFIGURE, .ACQUISITION_READY => true
  | .ACQUISITION_READY, .ACQUISITION_PENDING => true
  | .ACQUISITION_PENDING, .ACQUISITION_DONE => true
  | .ACQUISITION_DONE, .ACQUISITION_READY => true
  | .NEED_RESET, .RESET_PENDING => true
  | .RESET_PENDING, .NEED_CONFIGURE => true
  | .SHUTING_DOWN, .NEED_RESET => true
  | _, _ => false

/-- The switch either leaves the state unchanged (a waiting condition) or
moves it along exactly one transition edge. -/
theorem caseStep_at_most_one_edge (L : LidarObject) (ro : Bool)
    (env : SensorEnv) :
    (caseStep L ro env).1.lidar_state = L.lidar_state ∨
      isEdge L.lidar_state (caseStep L ro env).1.lidar_state = true := by
  cases h : L.lidar_state <;>
    simp [caseStep, h, isEdge, status, distance] <;>
      split <;> simp [isEdge, h]

/-- A slot other than the one being processed is untouched. -/
theorem spinSlot_preserve (env : Nat → SensorEnv) (c : LidarController)
    (i j : Nat) (h : j ≠ i) : (spinSlot env c i).lidars j = c.lidars j := by
  unfold spinSlot
  cases c.lidars i <;> simp [h]

/-- Folding the slot handler over indices not containing `i` leaves slot
`i` untouched. -/
theorem foldl_spinSlot_preserve (env : Nat → SensorEnv) (l : List Nat)
    (c : LidarController) (i : Nat) (h : i ∉ l) :
    (l.foldl (spinSlot env) c).lidars i = c.lidars i := by
  induction l generalizing c with
  | nil => rfl
  | cons a tl ih =>
      simp only [List.foldl_cons]
      rw [ih _ (fun hm => h (List.mem_cons_of_mem a hm))]
      exact spinSlot_preserve env c a i
        (fun he => h (he ▸ List.mem_cons_self a tl))

/-- Inside a tick, slot `i` is processed exactly once, by `spinStep`, from
the value it held at the start of the tick and under the latch value the
loop reaches it with. -/
theorem foldl_range_slot (env : Nat → SensorEnv) :
    ∀ (n : Nat) (c : LidarController) (i : Nat), i < n →
      ∀ L : LidarObject, c.lidars i = some L →
      ∃ ro : Bool, ((List.range n).foldl (spinSlot env) c).lidars i =
        some (spinStep L ro (env i)).1 := by
  intro n
  induction n with
  | zero => intro c i hi; omega
  | succ m ih =>
      intro c i hi L hL
      rw [List.range_succ, List.foldl_append, List.foldl_cons,
        List.foldl_nil]
      by_cases hcase : i < m
      · obtain ⟨ro, hro⟩ := ih c i hcase L hL
        exact ⟨ro, by
          rw [spinSlot_preserve env _ m i (by omega)]
          exact hro⟩
      · have him : i = m := by omega
        subst him
        have hpre : ((List.range i).foldl (spinSlot env) c).lidars i =
            some L := by
          rw [foldl_spinSlot_preserve env _ c i (by simp)]
          exact hL
        refine ⟨((List.range i).foldl (spinSlot env) c).resetOngoing, ?_⟩
        simp [spinSlot, hpre]

/-- C7: for every registered slot of the controller and every tick of
`spinOnce`, the slot is processed once: its switch case advances its
lifecycle state by at most one transition edge (zero when the state is
waiting on a condition), and the only further state action of the tick is
the fault-counter check, which either leaves the case's result alone or
applies the forced reset. -/
theorem c7_at_most_one_transition (c : LidarController)
    (env : Nat → SensorEnv) (i : Nat) (hi : i < c.count)
    (L : LidarObject) (hL : c.lidars i = some L) :
    ∃ ro : Bool,
      (spinOnce c env).lidars i = some (spinStep L ro (env i)).1 ∧
      ((caseStep L ro (env i)).1.lidar_state = L.lidar_state ∨
        isEdge L.lidar_state (caseStep L ro (env i)).1.lidar_state = true) ∧
      (spinStep L ro (env i) = caseStep L ro (env i) ∨
        spinStep L ro (env i) =
          (resetLidarObj { (caseStep L ro (env i)).1 with nacksCount := 0 },
            (caseStep L ro (env i)).2)) := by
  obtain ⟨ro, hro⟩ := foldl_range_slot env c.count c i hi L hL
  refine ⟨ro, hro, caseStep_at_most_one_edge L ro (env i), ?_⟩
  unfold spinStep
  by_cases hn : (caseStep L ro (env i)).1.nacksCount > MAX_NACKS
  · exact Or.inr (by simp [hn])
  · exact Or.inl (by simp [hn])

/-- Controller used to witness C7: one registered sensor at slot 0. -/
def c7W : LidarController := (add initController (mkLidar 0x66) 0).2

/-- Witness for C7 at a concrete controller, environment and slot. -/
theorem c7_witness :
    0 < c7W.count ∧
    c7W.lidars 0 = some (resetLidarObj (mkLidar 0x66)) ∧
    (∃ ro : Bool,
      (spinOnce c7W (fun _ => envOffline false)).lidars 0 =
        some (spinStep (resetLidarObj (mkLidar 0x66)) ro
          (envOffline false)).1 ∧
      ((caseStep (resetLidarObj (mkLidar 0x66)) ro
          (envOffline false)).1.lidar_state =
            (resetLidarObj (mkLidar 0x66)).lidar_state ∨
        isEdge (resetLidarObj (mkLidar 0x66)).lidar_state
          (caseStep (resetLidarObj (mkLidar 0x66)) ro
            (envOffline false)).1.lidar_state = true) ∧
      (spinStep (resetLidarObj (mkLidar 0x66)) ro (envOffline false) =
          caseStep (resetLidarObj (mkLidar 0x66)) ro (envOffline false) ∨
        spinStep (resetLidarObj (mkLidar 0x66)) ro (envOffline false) =
          (resetLidarObj
            { (caseStep (resetLidarObj (mkLidar 0x66)) ro
                (envOffline false)).1 with nacksCount := 0 },
            (caseStep (resetLidarObj (mkLidar 0x66)) ro
              (envOffline false)).2))) :=
  ⟨by decide, rfl,
    c7_at_most_one_transition c7W (fun _ => envOffline false) 0 (by decide)
      (resetLidarObj (mkLidar 0x66)) rfl⟩

end LidarEnhanced
